import Mathlib

/-!
Verification of the Big Bang particle simulation (`src/script.js`).

The simulation core is embedded shallowly over the reals:
`Math.random()` is modelled as a stream `rnd : ℕ → ℝ` of values in `[0, 1)`,
consumed in the order the source draws them; the flat `Float32Array`
buffers become `List ℝ`; the global mutable state becomes an explicit
`SimState` record, and each externally triggered action (an animation
frame, the GUI regeneration callback, a live GUI parameter mutation)
becomes an `Event` processed by a `step` function.
-/

namespace BigBang

noncomputable section

/-- Values a JavaScript `Math.random()` call may return: the half-open unit
interval `[0, 1)`. -/
def ValidRand (rnd : ℕ → ℝ) : Prop := ∀ n, 0 ≤ rnd n ∧ rnd n < 1

/-! ### three.js color helper

`THREE.Color#setHSL` as implemented by the three.js library used by the
source (the library's input clamping is omitted: every call in the source
passes in-range constants, on which the clamp is the identity). -/

def hue2rgb (p q t0 : ℝ) : ℝ :=
  let t1 := if t0 < 0 then t0 + 1 else t0
  let t := if t1 > 1 then t1 - 1 else t1
  if t < 1 / 6 then p + (q - p) * 6 * t
  else if t < 1 / 2 then q
  else if t < 2 / 3 then p + (q - p) * 6 * (2 / 3 - t)
  else p

def setHSL (h s l : ℝ) : ℝ × ℝ × ℝ :=
  if s = 0 then (l, l, l)
  else
    let p := if l ≤ 0.5 then l * (1 + s) else l + s - l * s
    let q := 2 * l - p
    (hue2rgb q p (h + 1 / 3), hue2rgb q p h, hue2rgb q p (h - 1 / 3))

/-! ### Explosion particle creation (`createExplosionParticles`)

Per particle `i` the source draws nine randoms, in order:
seed radius, seed theta, seed phi (indices `9*i` to `9*i+2`),
raw velocity direction `vx vy vz` (indices `9*i+3` to `9*i+5`),
and the three per-component speed scales (indices `9*i+6` to `9*i+8`). -/

/-- Seed position: `r = Math.random() * 0.1`, `theta = Math.random() * Math.PI * 2`,
`phi = Math.acos(Math.random() * 2 - 1)`, spherical-to-Cartesian. -/
def explosionSeedPosition (u0 u1 u2 : ℝ) : ℝ × ℝ × ℝ :=
  let r := u0 * 0.1
  let theta := u1 * Real.pi * 2
  let phi := Real.arccos (u2 * 2 - 1)
  (r * Real.sin phi * Real.cos theta,
   r * Real.sin phi * Real.sin theta,
   r * Real.cos phi)

/-- Raw (unnormalized) velocity direction: `vx = Math.random() - 0.5`, etc. -/
def rawDirection (u0 u1 u2 : ℝ) : ℝ × ℝ × ℝ :=
  (u0 - 0.5, u1 - 0.5, u2 - 0.5)

/-- `len = Math.sqrt(vx*vx + vy*vy + vz*vz)`. -/
def dirLen (u0 u1 u2 : ℝ) : ℝ :=
  Real.sqrt ((u0 - 0.5) * (u0 - 0.5) + (u1 - 0.5) * (u1 - 0.5) +
    (u2 - 0.5) * (u2 - 0.5))

/-- The velocity pushed onto `explosionVelocities`: each component is the
normalized direction component times its own fresh `Math.random() * 5 + 2`. -/
def explosionVelocity (u0 u1 u2 u3 u4 u5 : ℝ) : ℝ × ℝ × ℝ :=
  let v := rawDirection u0 u1 u2
  let len := dirLen u0 u1 u2
  ((v.1 / len) * (u3 * 5 + 2),
   (v.2.1 / len) * (u4 * 5 + 2),
   (v.2.2 / len) * (u5 * 5 + 2))

/-- Euclidean magnitude of a velocity / position triple. -/
def triMag (v : ℝ × ℝ × ℝ) : ℝ :=
  Real.sqrt (v.1 ^ 2 + v.2.1 ^ 2 + v.2.2 ^ 2)

/-- The velocity list built by the creation loop. -/
def createExplosionVelocities (count : ℕ) (rnd : ℕ → ℝ) : List (ℝ × ℝ × ℝ) :=
  (List.range count).map fun i =>
    explosionVelocity (rnd (9 * i + 3)) (rnd (9 * i + 4)) (rnd (9 * i + 5))
      (rnd (9 * i + 6)) (rnd (9 * i + 7)) (rnd (9 * i + 8))

/-- Flatten a per-particle triple function into the flat buffer layout
`positions[3i], positions[3i+1], positions[3i+2]`. -/
def flatTriples (count : ℕ) (f : ℕ → ℝ × ℝ × ℝ) : List ℝ :=
  (List.range count).flatMap fun i => [(f i).1, (f i).2.1, (f i).2.2]

/-- The `positions` buffer filled by the explosion creation loop. -/
def createExplosionPositions (count : ℕ) (rnd : ℕ → ℝ) : List ℝ :=
  flatTriples count fun i =>
    explosionSeedPosition (rnd (9 * i)) (rnd (9 * i + 1)) (rnd (9 * i + 2))

/-- Every explosion particle gets `color.setHSL(0.1, 1.0, 0.8)`. -/
def explosionColor : ℝ × ℝ × ℝ := setHSL 0.1 1.0 0.8

/-- The `colors` buffer filled by the explosion creation loop. -/
def createExplosionColors (count : ℕ) : List ℝ :=
  flatTriples count fun _ => explosionColor

/-- The `sizes` buffer: every explosion particle has size `2.0`. -/
def createExplosionSizes (count : ℕ) : List ℝ :=
  (List.range count).map fun _ => (2.0 : ℝ)

/-! ### Galaxy particle creation (`createGalaxyParticles`)

Per particle `i` the source draws three randoms, in order:
radius, theta, phi (indices `3*i` to `3*i+2`). -/

/-- Galaxy seed position: `r = Math.random() * galaxySpread + 50`. -/
def galaxyPosition (spread u0 u1 u2 : ℝ) : ℝ × ℝ × ℝ :=
  let r := u0 * spread + 50
  let theta := u1 * Real.pi * 2
  let phi := Real.arccos (u2 * 2 - 1)
  (r * Real.sin phi * Real.cos theta,
   r * Real.sin phi * Real.sin theta,
   r * Real.cos phi)

/-- The `positions` buffer filled by the galaxy creation loop. -/
def createGalaxyPositions (count : ℕ) (spread : ℝ) (rnd : ℕ → ℝ) : List ℝ :=
  flatTriples count fun i =>
    galaxyPosition spread (rnd (3 * i)) (rnd (3 * i + 1)) (rnd (3 * i + 2))

/-- Every galaxy particle gets `color.setHSL(0.6, 0.7, 0.7)`. -/
def galaxyColor : ℝ × ℝ × ℝ := setHSL 0.6 0.7 0.7

/-- The galaxy `colors` buffer. -/
def createGalaxyColors (count : ℕ) : List ℝ :=
  flatTriples count fun _ => galaxyColor

/-- The galaxy `sizes` buffer: every galaxy particle has size `2.5`. -/
def createGalaxySizes (count : ℕ) : List ℝ :=
  (List.range count).map fun _ => (2.5 : ℝ)

/-! ### Simulation state and events

The global mutable state of `script.js`, restricted to the simulation core:
`explosionParams`, `galaxyParams`, the explosion geometry buffers and
velocity list, the galaxy geometry buffers, and the galaxy rotation angle. -/

structure ExplosionParams where
  particleCount : ℕ
  expansionSpeed : ℝ
  explosionTime : ℝ

structure GalaxyParams where
  particleCount : ℕ
  galaxySpread : ℝ
  created : Bool

structure SimState where
  explosionParams : ExplosionParams
  galaxyParams : GalaxyParams
  explosionPositions : List ℝ
  explosionColors : List ℝ
  explosionSizes : List ℝ
  explosionVelocities : List (ℝ × ℝ × ℝ)
  galaxyPositions : List ℝ
  galaxyColors : List ℝ
  galaxySizes : List ℝ
  galaxyRotationY : ℝ

/-- The state after `init()`: default parameters
(`particleCount: 10000, expansionSpeed: 1.0, explosionTime: 0.0`,
`particleCount: 5000, galaxySpread: 500, created: false`) and one call to
`createExplosionParticles`. -/
def initState (rnd : ℕ → ℝ) : SimState where
  explosionParams := ⟨10000, 1.0, 0.0⟩
  galaxyParams := ⟨5000, 500, false⟩
  explosionPositions := createExplosionPositions 10000 rnd
  explosionColors := createExplosionColors 10000
  explosionSizes := createExplosionSizes 10000
  explosionVelocities := createExplosionVelocities 10000 rnd
  galaxyPositions := []
  galaxyColors := []
  galaxySizes := []
  galaxyRotationY := 0

/-- One write of the animation loop body:
`positions[i*3] = v.x * t; positions[i*3+1] = v.y * t; positions[i*3+2] = v.z * t`.
`List.set` out of range is a no-op, matching `Float32Array` stores. -/
def writeTriple (ps : List ℝ) (i : ℕ) (v : ℝ × ℝ × ℝ) : List ℝ :=
  ((ps.set (3 * i) v.1).set (3 * i + 1) v.2.1).set (3 * i + 2) v.2.2

/-- The position-update loop of `animate`:
for `i` from `0` to `particleCount - 1`, write
`explosionVelocities[i] * explosionTime` into slots `3i, 3i+1, 3i+2`.
The in-bounds velocity read `explosionVelocities[i]` is modelled with a
default value; `UpdateInBounds` below states when no default is consulted. -/
def updatePositions (vels : List (ℝ × ℝ × ℝ)) (t : ℝ) (count : ℕ)
    (ps : List ℝ) : List ℝ :=
  (List.range count).foldl
    (fun acc i =>
      let v := vels.getD i (0, 0, 0)
      writeTriple acc i (v.1 * t, v.2.1 * t, v.2.2 * t))
    ps

/-- The update loop touches only indices that exist: every velocity read and
every position write of `updatePositions` is within the array bounds. -/
def UpdateInBounds (s : SimState) : Prop :=
  ∀ i < s.explosionParams.particleCount,
    i < s.explosionVelocities.length ∧
    3 * i + 2 < s.explosionPositions.length

/-- Externally triggered actions on the simulation core. `tick` is one
`animate` frame with its delta and the random stream a possible galaxy
creation would consume. `regenerate` is the GUI `onFinishChange` callback
for the explosion particle count (remove old system, clear velocities, set
the count, call `createExplosionParticles`). `setExplosionCount` is a live
mutation of `explosionParams.particleCount` by the GUI slider without the
callback having run. The remaining events are the other GUI bindings. -/
inductive Event where
  | tick (delta : ℝ) (rnd : ℕ → ℝ)
  | regenerate (newCount : ℕ) (rnd : ℕ → ℝ)
  | setExplosionCount (n : ℕ)
  | setExpansionSpeed (v : ℝ)
  | setGalaxySpread (v : ℝ)
  | setGalaxyCount (n : ℕ)

/-- State transition for one event, translated from `animate` (lines
297-319), the `onFinishChange` callback (lines 264-270) and the plain GUI
bindings of `setupGUI`. -/
def step (e : Event) (s : SimState) : SimState :=
  match e with
  | .tick delta rnd =>
    let t := s.explosionParams.explosionTime +
      delta * s.explosionParams.expansionSpeed
    let ps := updatePositions s.explosionVelocities t
      s.explosionParams.particleCount s.explosionPositions
    let s₁ : SimState :=
      { s with
        explosionParams := { s.explosionParams with explosionTime := t }
        explosionPositions := ps }
    let s₂ : SimState :=
      if s₁.galaxyParams.created = false ∧ t > 10 then
        { s₁ with
          galaxyParams := { s₁.galaxyParams with created := true }
          galaxyPositions := createGalaxyPositions
            s₁.galaxyParams.particleCount s₁.galaxyParams.galaxySpread rnd
          galaxyColors := createGalaxyColors s₁.galaxyParams.particleCount
          galaxySizes := createGalaxySizes s₁.galaxyParams.particleCount }
      else s₁
    if s₂.galaxyParams.created = true then
      { s₂ with galaxyRotationY := s₂.galaxyRotationY + 0.0005 }
    else s₂
  | .regenerate newCount rnd =>
    { s with
      explosionParams := { s.explosionParams with particleCount := newCount }
      explosionPositions := createExplosionPositions newCount rnd
      explosionColors := createExplosionColors newCount
      explosionSizes := createExplosionSizes newCount
      explosionVelocities := createExplosionVelocities newCount rnd }
  | .setExplosionCount n =>
    { s with explosionParams := { s.explosionParams with particleCount := n } }
  | .setExpansionSpeed v =>
    { s with explosionParams := { s.explosionParams with expansionSpeed := v } }
  | .setGalaxySpread v =>
    { s with galaxyParams := { s.galaxyParams with galaxySpread := v } }
  | .setGalaxyCount n =>
    { s with galaxyParams := { s.galaxyParams with particleCount := n } }

/-- The state reached after processing a list of events in order. -/
def runState (events : List Event) (s₀ : SimState) : SimState :=
  events.foldl (fun s e => step e s) s₀

/-- The state just before event number `k` of a run. -/
def stateAt (events : List Event) (s₀ : SimState) (k : ℕ) : SimState :=
  runState (events.take k) s₀

end

/-! ### Buffer-layout lemmas -/

theorem flatTriples_succ (n : ℕ) (f : ℕ → ℝ × ℝ × ℝ) :
    flatTriples (n + 1) f =
      flatTriples n f ++ [(f n).1, (f n).2.1, (f n).2.2] := by
  simp [flatTriples, List.range_succ]

theorem flatTriples_length (count : ℕ) (f : ℕ → ℝ × ℝ × ℝ) :
    (flatTriples count f).length = 3 * count := by
  induction count with
  | zero => simp [flatTriples]
  | succ n ih => rw [flatTriples_succ]; simp [ih]; ring

theorem flatTriples_getElem? (count : ℕ) (f : ℕ → ℝ × ℝ × ℝ) (i : ℕ)
    (hi : i < count) :
    (flatTriples count f)[3 * i]? = some (f i).1 ∧
    (flatTriples count f)[3 * i + 1]? = some (f i).2.1 ∧
    (flatTriples count f)[3 * i + 2]? = some (f i).2.2 := by
  induction count with
  | zero => omega
  | succ n ih =>
    rw [flatTriples_succ]
    have hl : (flatTriples n f).length = 3 * n := flatTriples_length n f
    rcases Nat.lt_succ_iff_lt_or_eq.mp hi with h | h
    · refine ⟨?_, ?_, ?_⟩ <;>
        rw [List.getElem?_append_left (by omega)]
      · exact (ih h).1
      · exact (ih h).2.1
      · exact (ih h).2.2
    · subst h
      refine ⟨?_, ?_, ?_⟩ <;> rw [List.getElem?_append_right (by omega)]
      · have : 3 * i - (flatTriples i f).length = 0 := by omega
        rw [this]; rfl
      · have : 3 * i + 1 - (flatTriples i f).length = 1 := by omega
        rw [this]; rfl
      · have : 3 * i + 2 - (flatTriples i f).length = 2 := by omega
        rw [this]; rfl

theorem createExplosionVelocities_length (count : ℕ) (rnd : ℕ → ℝ) :
    (createExplosionVelocities count rnd).length = count := by
  simp [createExplosionVelocities]

theorem createExplosionPositions_length (count : ℕ) (rnd : ℕ → ℝ) :
    (createExplosionPositions count rnd).length = 3 * count :=
  flatTriples_length count _

theorem createExplosionColors_length (count : ℕ) :
    (createExplosionColors count).length = 3 * count :=
  flatTriples_length count _

theorem createExplosionSizes_length (count : ℕ) :
    (createExplosionSizes count).length = count := by
  simp [createExplosionSizes]

theorem createGalaxyPositions_length (count : ℕ) (spread : ℝ) (rnd : ℕ → ℝ) :
    (createGalaxyPositions count spread rnd).length = 3 * count :=
  flatTriples_length count _

/-! ### Position-update loop lemmas -/

theorem updatePositions_succ (vels : List (ℝ × ℝ × ℝ)) (t : ℝ) (n : ℕ)
    (ps : List ℝ) :
    updatePositions vels t (n + 1) ps =
      writeTriple (updatePositions vels t n ps) n
        ((vels.getD n (0, 0, 0)).1 * t, (vels.getD n (0, 0, 0)).2.1 * t,
          (vels.getD n (0, 0, 0)).2.2 * t) := by
  simp [updatePositions, List.range_succ]

theorem writeTriple_length (ps : List ℝ) (i : ℕ) (v : ℝ × ℝ × ℝ) :
    (writeTriple ps i v).length = ps.length := by
  simp [writeTriple]

theorem updatePositions_length (vels : List (ℝ × ℝ × ℝ)) (t : ℝ) (count : ℕ)
    (ps : List ℝ) :
    (updatePositions vels t count ps).length = ps.length := by
  induction count with
  | zero => simp [updatePositions]
  | succ n ih => rw [updatePositions_succ, writeTriple_length, ih]

theorem updatePositions_getElem? (vels : List (ℝ × ℝ × ℝ)) (t : ℝ)
    (count : ℕ) (ps : List ℝ) (i : ℕ) (hi : i < count)
    (hlen : 3 * i + 2 < ps.length) :
    (updatePositions vels t count ps)[3 * i]? =
      some ((vels.getD i (0, 0, 0)).1 * t) ∧
    (updatePositions vels t count ps)[3 * i + 1]? =
      some ((vels.getD i (0, 0, 0)).2.1 * t) ∧
    (updatePositions vels t count ps)[3 * i + 2]? =
      some ((vels.getD i (0, 0, 0)).2.2 * t) := by
  induction count with
  | zero => omega
  | succ n ih =>
    rw [updatePositions_succ]
    have hul : (updatePositions vels t n ps).length = ps.length :=
      updatePositions_length vels t n ps
    rcases Nat.lt_succ_iff_lt_or_eq.mp hi with h | h
    · unfold writeTriple
      refine ⟨?_, ?_, ?_⟩ <;>
          rw [List.getElem?_set_ne (by omega), List.getElem?_set_ne (by omega),
            List.getElem?_set_ne (by omega)]
      · exact (ih h).1
      · exact (ih h).2.1
      · exact (ih h).2.2
    · subst h
      unfold writeTriple
      refine ⟨?_, ?_, ?_⟩
      · rw [List.getElem?_set_ne (by omega), List.getElem?_set_ne (by omega)]
        exact List.getElem?_set_eq_of_lt _ (by omega)
      · rw [List.getElem?_set_ne (by omega)]
        exact List.getElem?_set_eq_of_lt _ (by simp [hul]; omega)
      · exact List.getElem?_set_eq_of_lt _ (by simp [hul]; omega)

/-! ### How one tick acts on the state -/

/-- Effect of one animation tick on the explosion-related fields: the clock
advances by `delta * expansionSpeed`, the position buffer is rewritten by the
update loop using the advanced clock, and velocities, counts, speed, colors
and sizes are untouched; the galaxy-creation branch touches none of them. -/
theorem step_tick_explosion (s : SimState) (d : ℝ) (rnd : ℕ → ℝ) :
    (step (.tick d rnd) s).explosionParams.explosionTime =
      s.explosionParams.explosionTime + d * s.explosionParams.expansionSpeed ∧
    (step (.tick d rnd) s).explosionPositions =
      updatePositions s.explosionVelocities
        (s.explosionParams.explosionTime + d * s.explosionParams.expansionSpeed)
        s.explosionParams.particleCount s.explosionPositions ∧
    (step (.tick d rnd) s).explosionVelocities = s.explosionVelocities ∧
    (step (.tick d rnd) s).explosionParams.particleCount =
      s.explosionParams.particleCount ∧
    (step (.tick d rnd) s).explosionParams.expansionSpeed =
      s.explosionParams.expansionSpeed ∧
    (step (.tick d rnd) s).explosionColors = s.explosionColors ∧
    (step (.tick d rnd) s).explosionSizes = s.explosionSizes := by
  simp only [step]
  split <;> split <;> simp

/-- Claim C1: after every tick, every particle of the Explosion Population has
position equal to its fixed velocity vector multiplied by the single shared
explosion-clock value: for every index `i`, the buffer slots `3i, 3i+1, 3i+2`
hold `velocity_i` times the one scalar `explosionTime` of the stepped state
(no per-particle clocks). -/
theorem tick_position_eq_velocity_mul_clock (s : SimState) (d : ℝ)
    (rnd : ℕ → ℝ)
    (hp : s.explosionPositions.length = 3 * s.explosionParams.particleCount) :
    ∀ i < s.explosionParams.particleCount, ∀ v : ℝ × ℝ × ℝ,
      s.explosionVelocities[i]? = some v →
      (step (.tick d rnd) s).explosionVelocities[i]? = some v ∧
      (step (.tick d rnd) s).explosionPositions[3 * i]? =
        some (v.1 * (step (.tick d rnd) s).explosionParams.explosionTime) ∧
      (step (.tick d rnd) s).explosionPositions[3 * i + 1]? =
        some (v.2.1 * (step (.tick d rnd) s).explosionParams.explosionTime) ∧
      (step (.tick d rnd) s).explosionPositions[3 * i + 2]? =
        some (v.2.2 * (step (.tick d rnd) s).explosionParams.explosionTime) := by
  intro i hi v hvi
  obtain ⟨ht, hps, hvels, -, -, -, -⟩ := step_tick_explosion s d rnd
  have hgd : s.explosionVelocities.getD i (0, 0, 0) = v := by
    rw [List.getD_eq_getElem?_getD, hvi]; rfl
  have hlen : 3 * i + 2 < s.explosionPositions.length := by rw [hp]; omega
  obtain ⟨h0, h1, h2⟩ := updatePositions_getElem? s.explosionVelocities
    (s.explosionParams.explosionTime + d * s.explosionParams.expansionSpeed)
    s.explosionParams.particleCount s.explosionPositions i hi hlen
  rw [hgd] at h0 h1 h2
  rw [hvels, hps, ht]
  exact ⟨hvi, h0, h1, h2⟩

/-- A small concrete simulation state used to instantiate theorems with
hypotheses: one explosion particle with velocity `(2, 0, 0)`. -/
def sampleState : SimState where
  explosionParams := ⟨1, 1, 0⟩
  galaxyParams := ⟨2, 500, false⟩
  explosionPositions := [0, 0, 0]
  explosionColors := [0, 0, 0]
  explosionSizes := [2]
  explosionVelocities := [(2, 0, 0)]
  galaxyPositions := []
  galaxyColors := []
  galaxySizes := []
  galaxyRotationY := 0

/-- Witness for C1 at the concrete state `sampleState` with `delta = 5`. -/
theorem tick_position_eq_velocity_mul_clock_witness :
    sampleState.explosionPositions.length =
      3 * sampleState.explosionParams.particleCount ∧
    (∀ i < sampleState.explosionParams.particleCount, ∀ v : ℝ × ℝ × ℝ,
      sampleState.explosionVelocities[i]? = some v →
      (step (.tick 5 fun _ => 0) sampleState).explosionVelocities[i]? = some v ∧
      (step (.tick 5 fun _ => 0) sampleState).explosionPositions[3 * i]? =
        some (v.1 *
          (step (.tick 5 fun _ => 0) sampleState).explosionParams.explosionTime) ∧
      (step (.tick 5 fun _ => 0) sampleState).explosionPositions[3 * i + 1]? =
        some (v.2.1 *
          (step (.tick 5 fun _ => 0) sampleState).explosionParams.explosionTime) ∧
      (step (.tick 5 fun _ => 0) sampleState).explosionPositions[3 * i + 2]? =
        some (v.2.2 *
          (step (.tick 5 fun _ => 0) sampleState).explosionParams.explosionTime)) :=
  ⟨by simp [sampleState],
    tick_position_eq_velocity_mul_clock sampleState 5 (fun _ => 0)
      (by simp [sampleState])⟩

/-- `sampleState` with the explosion clock already at `5`. -/
def sampleStateAt5 : SimState :=
  { sampleState with explosionParams := ⟨1, 1, 5⟩ }

/-- Claim C2 (amended): regenerating with a new count installs a population of
exactly `newCount` particles whose buffers and velocity list are freshly built
from the new count and the new random stream alone — so nothing of the old
arrays leaks in — but the explosion clock is NOT reset: it keeps its previous
value. -/
theorem regenerate_fresh_population (s : SimState) (n : ℕ) (rnd : ℕ → ℝ) :
    (step (.regenerate n rnd) s).explosionParams.particleCount = n ∧
    (step (.regenerate n rnd) s).explosionVelocities =
      createExplosionVelocities n rnd ∧
    (step (.regenerate n rnd) s).explosionPositions =
      createExplosionPositions n rnd ∧
    (step (.regenerate n rnd) s).explosionColors = createExplosionColors n ∧
    (step (.regenerate n rnd) s).explosionSizes = createExplosionSizes n ∧
    (step (.regenerate n rnd) s).explosionVelocities.length = n ∧
    (step (.regenerate n rnd) s).explosionPositions.length = 3 * n ∧
    (step (.regenerate n rnd) s).explosionColors.length = 3 * n ∧
    (step (.regenerate n rnd) s).explosionSizes.length = n ∧
    (step (.regenerate n rnd) s).explosionParams.explosionTime =
      s.explosionParams.explosionTime := by
  refine ⟨rfl, rfl, rfl, rfl, rfl, ?_, ?_, ?_, ?_, rfl⟩
  · exact createExplosionVelocities_length n rnd
  · exact createExplosionPositions_length n rnd
  · exact createExplosionColors_length n
  · exact createExplosionSizes_length n

/-- Counterexample to C2 as stated: regenerating from a state whose explosion
clock reads `5` leaves the clock at `5`; it is not reset to `0`. -/
theorem regenerate_keeps_clock_counterexample :
    (step (.regenerate 3 fun _ => 0)
        sampleStateAt5).explosionParams.explosionTime = 5 ∧
    (5 : ℝ) ≠ 0 := by
  exact ⟨rfl, by norm_num⟩

/-- Claim C4 (amended): starting from clock `0` with the galaxy not created,
a single tick with `delta = 5` and `expansionSpeed = 2` produces clock exactly
`10.0` and does NOT trigger galaxy creation on that tick, because the
threshold test `explosionTime > 10` is strict. -/
theorem tick_to_exactly_ten_does_not_create (s : SimState) (rnd : ℕ → ℝ)
    (h0 : s.explosionParams.explosionTime = 0)
    (hsp : s.explosionParams.expansionSpeed = 2)
    (hc : s.galaxyParams.created = false) :
    (step (.tick 5 rnd) s).explosionParams.explosionTime = 10 ∧
    (step (.tick 5 rnd) s).galaxyParams.created = false := by
  simp only [step, h0, hsp, hc]
  norm_num [hc]

/-- `sampleState` with `expansionSpeed = 2` and clock `0`. -/
def sampleStateSpeed2 : SimState :=
  { sampleState with explosionParams := ⟨1, 2, 0⟩ }

/-- Witness for C4 at the concrete state `sampleStateSpeed2`. -/
theorem tick_to_exactly_ten_does_not_create_witness :
    sampleStateSpeed2.explosionParams.explosionTime = 0 ∧
    sampleStateSpeed2.explosionParams.expansionSpeed = 2 ∧
    sampleStateSpeed2.galaxyParams.created = false ∧
    ((step (.tick 5 fun _ => 0)
        sampleStateSpeed2).explosionParams.explosionTime = 10 ∧
      (step (.tick 5 fun _ => 0) sampleStateSpeed2).galaxyParams.created =
        false) :=
  ⟨rfl, rfl, rfl,
    tick_to_exactly_ten_does_not_create sampleStateSpeed2 (fun _ => 0)
      rfl rfl rfl⟩

/-- Counterexample to C4 as stated: on the concrete boundary tick the clock is
exactly `10` and the galaxy has NOT been created. -/
theorem boundary_tick_no_creation_counterexample :
    (step (.tick 5 fun _ => 0)
        sampleStateSpeed2).explosionParams.explosionTime = 10 ∧
    (step (.tick 5 fun _ => 0) sampleStateSpeed2).galaxyParams.created =
      false := by
  simp only [step, sampleStateSpeed2, sampleState]
  norm_num

/-- Claim C5 (amended): the tick applies its delta unconditionally — the clock
always changes by `delta * expansionSpeed`, so a tick with a negative delta
and positive expansion speed strictly decreases the clock (and the position
buffer is rewritten against the decreased clock) instead of having zero
effect. -/
theorem tick_negative_delta_changes_clock (s : SimState) (rnd : ℕ → ℝ)
    (d : ℝ) (hd : d < 0) (hsp : 0 < s.explosionParams.expansionSpeed) :
    (step (.tick d rnd) s).explosionParams.explosionTime =
      s.explosionParams.explosionTime + d * s.explosionParams.expansionSpeed ∧
    (step (.tick d rnd) s).explosionParams.explosionTime <
      s.explosionParams.explosionTime ∧
    (step (.tick d rnd) s).explosionPositions =
      updatePositions s.explosionVelocities
        (s.explosionParams.explosionTime + d * s.explosionParams.expansionSpeed)
        s.explosionParams.particleCount s.explosionPositions := by
  obtain ⟨ht, hps, -, -, -, -, -⟩ := step_tick_explosion s d rnd
  refine ⟨ht, ?_, hps⟩
  rw [ht]
  nlinarith

/-- Witness for C5 at the concrete state `sampleStateAt5` with `delta = -1`. -/
theorem tick_negative_delta_changes_clock_witness :
    (-1 : ℝ) < 0 ∧ 0 < sampleStateAt5.explosionParams.expansionSpeed ∧
    ((step (.tick (-1) fun _ => 0)
        sampleStateAt5).explosionParams.explosionTime =
      sampleStateAt5.explosionParams.explosionTime +
        (-1) * sampleStateAt5.explosionParams.expansionSpeed ∧
    (step (.tick (-1) fun _ => 0)
        sampleStateAt5).explosionParams.explosionTime <
      sampleStateAt5.explosionParams.explosionTime ∧
    (step (.tick (-1) fun _ => 0) sampleStateAt5).explosionPositions =
      updatePositions sampleStateAt5.explosionVelocities
        (sampleStateAt5.explosionParams.explosionTime +
          (-1) * sampleStateAt5.explosionParams.expansionSpeed)
        sampleStateAt5.explosionParams.particleCount
        sampleStateAt5.explosionPositions) :=
  ⟨by norm_num, by norm_num [sampleStateAt5],
    tick_negative_delta_changes_clock sampleStateAt5 (fun _ => 0) (-1)
      (by norm_num) (by norm_num [sampleStateAt5])⟩

/-- Counterexample to C5 as stated: a tick with `delta = -1` from clock `5`
moves the clock to `4`; the tick is not zero-effect. -/
theorem negative_delta_not_zero_effect_counterexample :
    (step (.tick (-1) fun _ => 0)
        sampleStateAt5).explosionParams.explosionTime = 4 ∧
    (4 : ℝ) ≠ 5 := by
  constructor
  · simp only [step, sampleStateAt5, sampleState]
    norm_num
  · norm_num

/-! ### The one-shot galaxy phase transition -/

/-- The galaxy-creation branch of `animate` fires on this tick: the latch is
still clear and the advanced clock strictly exceeds the threshold `10`. -/
def tickFires (s : SimState) (d : ℝ) : Prop :=
  s.galaxyParams.created = false ∧
    s.explosionParams.explosionTime + d * s.explosionParams.expansionSpeed > 10

/-- The advanced clock of this tick strictly exceeds the threshold `10`
(regardless of the latch). -/
def tickCrosses (s : SimState) (d : ℝ) : Prop :=
  s.explosionParams.explosionTime + d * s.explosionParams.expansionSpeed > 10

/-- Event `e` invokes galaxy creation when processed in state `s`. -/
def eventFires : Event → SimState → Prop
  | .tick d _, s => tickFires s d
  | _, _ => False

/-- Galaxy creation is invoked at position `k` of the run. -/
def FiresAt (events : List Event) (s₀ : SimState) (k : ℕ) : Prop :=
  ∃ d rnd, events[k]? = some (.tick d rnd) ∧
    tickFires (stateAt events s₀ k) d

/-- Event `k` of the run is a tick whose advanced clock exceeds the
threshold. -/
def CrossesAt (events : List Event) (s₀ : SimState) (k : ℕ) : Prop :=
  ∃ d rnd, events[k]? = some (.tick d rnd) ∧
    tickCrosses (stateAt events s₀ k) d

theorem step_created_iff (e : Event) (s : SimState) :
    (step e s).galaxyParams.created = true ↔
      (s.galaxyParams.created = true ∨ eventFires e s) := by
  cases e with
  | tick d rnd =>
    simp only [step, eventFires, tickFires]
    split
    · rename_i h
      simp only [if_pos rfl]
      simp [h.1, h.2]
    · rename_i h
      rw [not_and_or] at h
      rcases h with h | h
      · have hc : s.galaxyParams.created = true := by simpa using h
        simp [hc]
      · by_cases hc : s.galaxyParams.created = true
        · simp [hc]
        · have hcf : s.galaxyParams.created = false := by simpa using hc
          simp [hcf, h]
  | regenerate n rnd => simp [step, eventFires]
  | setExplosionCount n => simp [step, eventFires]
  | setExpansionSpeed v => simp [step, eventFires]
  | setGalaxySpread v => simp [step, eventFires]
  | setGalaxyCount n => simp [step, eventFires]

theorem stateAt_succ_some (events : List Event) (s₀ : SimState) (k : ℕ)
    (e : Event) (h : events[k]? = some e) :
    stateAt events s₀ (k + 1) = step e (stateAt events s₀ k) := by
  unfold stateAt runState
  rw [List.take_succ, h]
  simp

theorem stateAt_succ_none (events : List Event) (s₀ : SimState) (k : ℕ)
    (h : events[k]? = none) :
    stateAt events s₀ (k + 1) = stateAt events s₀ k := by
  unfold stateAt runState
  rw [List.take_succ, h]
  simp

theorem firesAt_iff_eventFires (events : List Event) (s₀ : SimState) (k : ℕ)
    (e : Event) (h : events[k]? = some e) :
    FiresAt events s₀ k ↔ eventFires e (stateAt events s₀ k) := by
  cases e <;> simp [FiresAt, h, eventFires]

theorem not_firesAt_of_none (events : List Event) (s₀ : SimState) (k : ℕ)
    (h : events[k]? = none) : ¬ FiresAt events s₀ k := by
  simp [FiresAt, h]

/-- The latch reads `true` just before event `k` exactly when creation was
invoked at some earlier event. -/
theorem created_stateAt_iff (events : List Event) (s₀ : SimState)
    (h0 : s₀.galaxyParams.created = false) (k : ℕ) :
    (stateAt events s₀ k).galaxyParams.created = true ↔
      ∃ j < k, FiresAt events s₀ j := by
  induction k with
  | zero => simp [stateAt, runState, h0]
  | succ k ih =>
    cases hek : events[k]? with
    | none =>
      rw [stateAt_succ_none events s₀ k hek, ih]
      constructor
      · rintro ⟨j, hj, hf⟩; exact ⟨j, by omega, hf⟩
      · rintro ⟨j, hj, hf⟩
        rcases Nat.lt_succ_iff_lt_or_eq.mp hj with hj' | hj'
        · exact ⟨j, hj', hf⟩
        · subst hj'; exact absurd hf (not_firesAt_of_none events s₀ j hek)
    | some e =>
      rw [stateAt_succ_some events s₀ k e hek, step_created_iff, ih,
        ← firesAt_iff_eventFires events s₀ k e hek]
      constructor
      · rintro (⟨j, hj, hf⟩ | hf)
        · exact ⟨j, by omega, hf⟩
        · exact ⟨k, by omega, hf⟩
      · rintro ⟨j, hj, hf⟩
        rcases Nat.lt_succ_iff_lt_or_eq.mp hj with hj' | hj'
        · exact Or.inl ⟨j, hj', hf⟩
        · subst hj'; exact Or.inr hf

theorem firesAt_iff_crossesAt (events : List Event) (s₀ : SimState) (k : ℕ) :
    FiresAt events s₀ k ↔
      CrossesAt events s₀ k ∧
        (stateAt events s₀ k).galaxyParams.created = false := by
  constructor
  · rintro ⟨d, rnd, he, hc, ht⟩
    exact ⟨⟨d, rnd, he, ht⟩, hc⟩
  · rintro ⟨⟨d, rnd, he, ht⟩, hc⟩
    exact ⟨d, rnd, he, hc, ht⟩

theorem crossesAt_of_firesAt (events : List Event) (s₀ : SimState) (k : ℕ)
    (h : FiresAt events s₀ k) : CrossesAt events s₀ k :=
  ((firesAt_iff_crossesAt events s₀ k).mp h).1

/-- A threshold crossing at or before `j` guarantees an actual creation at or
before `j`. -/
theorem exists_fire_of_cross (events : List Event) (s₀ : SimState)
    (h0 : s₀.galaxyParams.created = false) :
    ∀ j, CrossesAt events s₀ j → ∃ i ≤ j, FiresAt events s₀ i := by
  intro j
  induction j using Nat.strong_induction_on with
  | _ j ih =>
    intro hcross
    by_cases hbefore : ∃ i < j, CrossesAt events s₀ i
    · obtain ⟨i, hi, hci⟩ := hbefore
      obtain ⟨i', hi', hfi'⟩ := ih i hi hci
      exact ⟨i', by omega, hfi'⟩
    · push_neg at hbefore
      have hnof : ¬ ∃ i < j, FiresAt events s₀ i := by
        rintro ⟨i, hi, hfi⟩
        exact hbefore i hi (crossesAt_of_firesAt events s₀ i hfi)
      have hcreated : (stateAt events s₀ j).galaxyParams.created = false := by
        by_cases h : (stateAt events s₀ j).galaxyParams.created = true
        · exact absurd ((created_stateAt_iff events s₀ h0 j).mp h) hnof
        · simpa using h
      exact ⟨j, le_refl j,
        (firesAt_iff_crossesAt events s₀ j).mpr ⟨hcross, hcreated⟩⟩

/-- Claim C3: across an entire run starting with the latch clear, galaxy
creation is invoked at most once — two invocation positions coincide — and
it is invoked at position `k` exactly when `k` is the FIRST tick whose
advanced clock strictly exceeds the threshold `10`; moreover the regeneration
event never resets the latch, so a regeneration after the creation cannot
enable a second one. -/
theorem galaxy_creation_one_shot (events : List Event) (s₀ : SimState)
    (h0 : s₀.galaxyParams.created = false) :
    (∀ j k, FiresAt events s₀ j → FiresAt events s₀ k → j = k) ∧
    (∀ k, FiresAt events s₀ k ↔
      (CrossesAt events s₀ k ∧ ∀ j < k, ¬ CrossesAt events s₀ j)) ∧
    (∀ (n : ℕ) (rnd : ℕ → ℝ) (s : SimState),
      (step (.regenerate n rnd) s).galaxyParams.created =
        s.galaxyParams.created) := by
  have hchar : ∀ k, FiresAt events s₀ k ↔
      (CrossesAt events s₀ k ∧ ∀ j < k, ¬ CrossesAt events s₀ j) := by
    intro k
    rw [firesAt_iff_crossesAt]
    constructor
    · rintro ⟨hc, hcr⟩
      refine ⟨hc, ?_⟩
      intro j hj hcj
      obtain ⟨i, hi, hfi⟩ := exists_fire_of_cross events s₀ h0 j hcj
      have : ∃ i' < k, FiresAt events s₀ i' := ⟨i, by omega, hfi⟩
      rw [← created_stateAt_iff events s₀ h0 k] at this
      rw [hcr] at this
      exact Bool.false_ne_true this
    · rintro ⟨hc, hnone⟩
      refine ⟨hc, ?_⟩
      by_cases h : (stateAt events s₀ k).galaxyParams.created = true
      · obtain ⟨j, hj, hfj⟩ := (created_stateAt_iff events s₀ h0 k).mp h
        exact absurd (crossesAt_of_firesAt events s₀ j hfj) (hnone j hj)
      · simpa using h
  refine ⟨?_, hchar, ?_⟩
  · intro j k hj hk
    obtain ⟨hcj, hbj⟩ := (hchar j).mp hj
    obtain ⟨hck, hbk⟩ := (hchar k).mp hk
    rcases lt_trichotomy j k with h | h | h
    · exact absurd hcj (hbk j h)
    · exact h
    · exact absurd hck (hbj k h)
  · intro n rnd s
    rfl

/-- Witness for C3: a concrete two-tick run from `sampleState` (latch clear). -/
theorem galaxy_creation_one_shot_witness :
    sampleState.galaxyParams.created = false ∧
    ((∀ j k,
        FiresAt [Event.tick 11 fun _ => 0, Event.tick 1 fun _ => 0]
          sampleState j →
        FiresAt [Event.tick 11 fun _ => 0, Event.tick 1 fun _ => 0]
          sampleState k → j = k) ∧
      (∀ k,
        FiresAt [Event.tick 11 fun _ => 0, Event.tick 1 fun _ => 0]
          sampleState k ↔
          (CrossesAt [Event.tick 11 fun _ => 0, Event.tick 1 fun _ => 0]
              sampleState k ∧
            ∀ j < k,
              ¬ CrossesAt [Event.tick 11 fun _ => 0, Event.tick 1 fun _ => 0]
                sampleState j)) ∧
      (∀ (n : ℕ) (rnd : ℕ → ℝ) (s : SimState),
        (step (.regenerate n rnd) s).galaxyParams.created =
          s.galaxyParams.created)) :=
  ⟨rfl,
    galaxy_creation_one_shot [Event.tick 11 fun _ => 0, Event.tick 1 fun _ => 0]
      sampleState rfl⟩

/-- Claim C8: once the Galaxy Population has been created, a tick leaves its
per-particle position, color and size buffers unchanged — galaxy particles
carry no velocity and receive no per-tick buffer update (only the
object-level rotation angle advances). -/
theorem tick_galaxy_buffers_static (s : SimState) (d : ℝ) (rnd : ℕ → ℝ)
    (h : s.galaxyParams.created = true) :
    (step (.tick d rnd) s).galaxyPositions = s.galaxyPositions ∧
    (step (.tick d rnd) s).galaxyColors = s.galaxyColors ∧
    (step (.tick d rnd) s).galaxySizes = s.galaxySizes ∧
    (step (.tick d rnd) s).galaxyParams.created = true := by
  have hcond : ¬(s.galaxyParams.created = false ∧
      s.explosionParams.explosionTime + d * s.explosionParams.expansionSpeed >
        10) := by
    simp [h]
  simp only [step, if_neg hcond]
  simp [h]

/-- `sampleState` with the galaxy already created. -/
def sampleStateCreated : SimState :=
  { sampleState with
    galaxyParams := ⟨2, 500, true⟩
    galaxyPositions := [0, 0, 60, 0, 60, 0]
    galaxyColors := [0, 0, 1, 0, 0, 1]
    galaxySizes := [2.5, 2.5] }

/-- Witness for C8 at the concrete state `sampleStateCreated`. -/
theorem tick_galaxy_buffers_static_witness :
    sampleStateCreated.galaxyParams.created = true ∧
    ((step (.tick 3 fun _ => 0) sampleStateCreated).galaxyPositions =
        sampleStateCreated.galaxyPositions ∧
      (step (.tick 3 fun _ => 0) sampleStateCreated).galaxyColors =
        sampleStateCreated.galaxyColors ∧
      (step (.tick 3 fun _ => 0) sampleStateCreated).galaxySizes =
        sampleStateCreated.galaxySizes ∧
      (step (.tick 3 fun _ => 0) sampleStateCreated).galaxyParams.created =
        true) :=
  ⟨rfl, tick_galaxy_buffers_static sampleStateCreated 3 (fun _ => 0) rfl⟩

/-! ### Buffer-size invariant of the update loop -/

/-- The velocity list has exactly `particleCount` entries and the position
buffer exactly `3 * particleCount` floats. -/
def BuffersSized (s : SimState) : Prop :=
  s.explosionVelocities.length = s.explosionParams.particleCount ∧
  s.explosionPositions.length = 3 * s.explosionParams.particleCount

theorem updateInBounds_of_buffersSized (s : SimState) (h : BuffersSized s) :
    UpdateInBounds s := by
  intro i hi
  obtain ⟨h1, h2⟩ := h
  omega

theorem step_preserves_buffersSized (e : Event) (s : SimState)
    (he : ∀ n, e ≠ .setExplosionCount n) (h : BuffersSized s) :
    BuffersSized (step e s) := by
  cases e with
  | tick d rnd =>
    obtain ⟨-, hps, hvels, hcount, -, -, -⟩ := step_tick_explosion s d rnd
    constructor
    · rw [hvels, hcount]; exact h.1
    · rw [hps, hcount, updatePositions_length]; exact h.2
  | regenerate n rnd =>
    exact ⟨createExplosionVelocities_length n rnd,
      createExplosionPositions_length n rnd⟩
  | setExplosionCount n => exact absurd rfl (he n)
  | setExpansionSpeed v => exact h
  | setGalaxySpread v => exact h
  | setGalaxyCount n => exact h

theorem runState_preserves_buffersSized (events : List Event) :
    ∀ s : SimState, BuffersSized s →
      (∀ n, Event.setExplosionCount n ∉ events) →
      BuffersSized (runState events s) := by
  induction events with
  | nil => intro s h _; exact h
  | cons e es ih =>
    intro s h hmem
    have h1 : ∀ n, e ≠ Event.setExplosionCount n := by
      intro n hn
      exact hmem n (by rw [hn]; exact List.mem_cons_self _ _)
    have h2 : ∀ n, Event.setExplosionCount n ∉ es := by
      intro n hn
      exact hmem n (List.mem_cons_of_mem e hn)
    exact ih (step e s) (step_preserves_buffersSized e s h1 h) h2

theorem initState_buffersSized (rnd : ℕ → ℝ) : BuffersSized (initState rnd) := by
  simp only [BuffersSized, initState]
  exact ⟨createExplosionVelocities_length 10000 rnd,
    createExplosionPositions_length 10000 rnd⟩

/-- Claim C10 (amended): in every state reachable from startup by ticks,
regenerations and the other parameter mutations — that is, as long as every
change of `explosionParams.particleCount` goes through the regeneration
callback — the velocity list has exactly `particleCount` entries and the
explosion position buffer `3 * particleCount` floats, so the position-update
loop never reads a velocity index or writes a buffer index out of bounds.
A live count mutation without regeneration breaks the invariant (see the
counterexample), so the claim's inclusion of such states is false. -/
theorem update_loop_in_bounds (rnd : ℕ → ℝ) (events : List Event)
    (hmem : ∀ n, Event.setExplosionCount n ∉ events) :
    BuffersSized (runState events (initState rnd)) ∧
    UpdateInBounds (runState events (initState rnd)) := by
  have h := runState_preserves_buffersSized events (initState rnd)
    (initState_buffersSized rnd) hmem
  exact ⟨h, updateInBounds_of_buffersSized _ h⟩

/-- Witness for C10: a concrete run of one tick followed by a regeneration. -/
theorem update_loop_in_bounds_witness :
    (∀ n, Event.setExplosionCount n ∉
      [Event.tick 1 fun _ => 0, Event.regenerate 5 fun _ => 0]) ∧
    (BuffersSized (runState
        [Event.tick 1 fun _ => 0, Event.regenerate 5 fun _ => 0]
        (initState fun _ => 0)) ∧
      UpdateInBounds (runState
        [Event.tick 1 fun _ => 0, Event.regenerate 5 fun _ => 0]
        (initState fun _ => 0))) :=
  ⟨by simp,
    update_loop_in_bounds (fun _ => 0)
      [Event.tick 1 fun _ => 0, Event.regenerate 5 fun _ => 0] (by simp)⟩

/-- Counterexample to C10 as stated: after the external collaborator mutates
`particleCount` to `20000` (the GUI slider maximum) with no regeneration, the
velocity list still has `10000` entries: the sizing invariant fails and the
update loop would read velocity index `10000` out of bounds. -/
theorem bare_count_mutation_out_of_bounds :
    ¬ BuffersSized (runState [Event.setExplosionCount 20000]
        (initState fun _ => 0)) ∧
    ¬ UpdateInBounds (runState [Event.setExplosionCount 20000]
        (initState fun _ => 0)) := by
  have hv : (runState [Event.setExplosionCount 20000]
      (initState fun _ => 0)).explosionVelocities.length = 10000 := by
    simp only [runState, List.foldl_cons, List.foldl_nil, step, initState]
    exact createExplosionVelocities_length 10000 fun _ => 0
  have hc : (runState [Event.setExplosionCount 20000]
      (initState fun _ => 0)).explosionParams.particleCount = 20000 := by
    simp only [runState, List.foldl_cons, List.foldl_nil, step, initState]
  constructor
  · intro h
    have := h.1
    rw [hv, hc] at this
    omega
  · intro h
    have h1 := (h 10000 (by rw [hc]; omega)).1
    rw [hv] at h1
    omega

/-! ### Spherical sampling and velocity-magnitude bounds -/

theorem galaxyPosition_normSq (spread u0 u1 u2 : ℝ) :
    (galaxyPosition spread u0 u1 u2).1 ^ 2 +
      (galaxyPosition spread u0 u1 u2).2.1 ^ 2 +
      (galaxyPosition spread u0 u1 u2).2.2 ^ 2 = (u0 * spread + 50) ^ 2 := by
  simp only [galaxyPosition]
  have h1 := Real.sin_sq_add_cos_sq (u1 * Real.pi * 2)
  have h2 := Real.sin_sq_add_cos_sq (Real.arccos (u2 * 2 - 1))
  linear_combination
    ((u0 * spread + 50) ^ 2 * Real.sin (Real.arccos (u2 * 2 - 1)) ^ 2) * h1 +
      (u0 * spread + 50) ^ 2 * h2

/-- Claim C7: every particle of the Galaxy Population has, at creation, a
position whose Euclidean distance from the origin lies in
`[50, 50 + galaxySpread]`, for every output of the random source and any
nonnegative spread. -/
theorem galaxy_particle_distance_in_shell (count : ℕ) (spread : ℝ)
    (rnd : ℕ → ℝ) (hr : ValidRand rnd) (hs : 0 ≤ spread) :
    ∀ i < count, ∃ x y z : ℝ,
      (createGalaxyPositions count spread rnd)[3 * i]? = some x ∧
      (createGalaxyPositions count spread rnd)[3 * i + 1]? = some y ∧
      (createGalaxyPositions count spread rnd)[3 * i + 2]? = some z ∧
      50 ≤ Real.sqrt (x ^ 2 + y ^ 2 + z ^ 2) ∧
      Real.sqrt (x ^ 2 + y ^ 2 + z ^ 2) ≤ 50 + spread := by
  intro i hi
  have h := flatTriples_getElem? count
    (fun j => galaxyPosition spread (rnd (3 * j)) (rnd (3 * j + 1))
      (rnd (3 * j + 2))) i hi
  refine ⟨_, _, _, h.1, h.2.1, h.2.2, ?_, ?_⟩ <;>
  · have hsq := galaxyPosition_normSq spread (rnd (3 * i)) (rnd (3 * i + 1))
      (rnd (3 * i + 2))
    have hu0 := (hr (3 * i)).1
    have hu1 := (hr (3 * i)).2
    have hprod : 0 ≤ rnd (3 * i) * spread := mul_nonneg hu0 hs
    have hr50 : (0 : ℝ) ≤ rnd (3 * i) * spread + 50 := by linarith
    have hsqrt : Real.sqrt
        ((galaxyPosition spread (rnd (3 * i)) (rnd (3 * i + 1))
            (rnd (3 * i + 2))).1 ^ 2 +
          (galaxyPosition spread (rnd (3 * i)) (rnd (3 * i + 1))
            (rnd (3 * i + 2))).2.1 ^ 2 +
          (galaxyPosition spread (rnd (3 * i)) (rnd (3 * i + 1))
            (rnd (3 * i + 2))).2.2 ^ 2) = rnd (3 * i) * spread + 50 := by
      rw [hsq]
      exact Real.sqrt_sq hr50
    rw [hsqrt]
    first
    | linarith
    | nlinarith [mul_le_of_le_one_left hs (le_of_lt hu1)]

/-- Witness for C7: one galaxy particle, spread `100`, the zero random
stream. -/
theorem galaxy_particle_distance_in_shell_witness :
    ValidRand (fun _ => 0) ∧ (0 : ℝ) ≤ 100 ∧
    (∀ i < 1, ∃ x y z : ℝ,
      (createGalaxyPositions 1 100 fun _ => 0)[3 * i]? = some x ∧
      (createGalaxyPositions 1 100 fun _ => 0)[3 * i + 1]? = some y ∧
      (createGalaxyPositions 1 100 fun _ => 0)[3 * i + 2]? = some z ∧
      50 ≤ Real.sqrt (x ^ 2 + y ^ 2 + z ^ 2) ∧
      Real.sqrt (x ^ 2 + y ^ 2 + z ^ 2) ≤ 50 + 100) :=
  ⟨fun _ => ⟨le_refl 0, by norm_num⟩, by norm_num,
    galaxy_particle_distance_in_shell 1 100 (fun _ => 0)
      (fun _ => ⟨le_refl 0, by norm_num⟩) (by norm_num)⟩

/-- If the three direction samples are not all exactly `0.5`, the raw
direction vector has strictly positive squared norm. -/
theorem rawDirection_normSq_pos (u0 u1 u2 : ℝ)
    (hne : ¬(u0 = 0.5 ∧ u1 = 0.5 ∧ u2 = 0.5)) :
    0 < (u0 - 0.5) * (u0 - 0.5) + (u1 - 0.5) * (u1 - 0.5) +
      (u2 - 0.5) * (u2 - 0.5) := by
  by_contra h
  push_neg at h
  have n0 := mul_self_nonneg (u0 - 0.5)
  have n1 := mul_self_nonneg (u1 - 0.5)
  have n2 := mul_self_nonneg (u2 - 0.5)
  have e0 : u0 - 0.5 = 0 := mul_self_eq_zero.mp (le_antisymm (by linarith) n0)
  have e1 : u1 - 0.5 = 0 := mul_self_eq_zero.mp (le_antisymm (by linarith) n1)
  have e2 : u2 - 0.5 = 0 := mul_self_eq_zero.mp (le_antisymm (by linarith) n2)
  exact hne ⟨by linarith, by linarith, by linarith⟩

/-- Claim C9 (amended): provided the three direction samples are not all
exactly `0.5`, the raw direction vector has nonzero norm, the normalization
never divides by zero, and the normalized direction has unit length. -/
theorem direction_normalized_unit (u0 u1 u2 : ℝ)
    (hne : ¬(u0 = 0.5 ∧ u1 = 0.5 ∧ u2 = 0.5)) :
    dirLen u0 u1 u2 ≠ 0 ∧
    triMag ((rawDirection u0 u1 u2).1 / dirLen u0 u1 u2,
      (rawDirection u0 u1 u2).2.1 / dirLen u0 u1 u2,
      (rawDirection u0 u1 u2).2.2 / dirLen u0 u1 u2) = 1 := by
  have hL := rawDirection_normSq_pos u0 u1 u2 hne
  have hlenpos : 0 < dirLen u0 u1 u2 := Real.sqrt_pos.mpr hL
  have hlen2 : dirLen u0 u1 u2 ^ 2 =
      (u0 - 0.5) * (u0 - 0.5) + (u1 - 0.5) * (u1 - 0.5) +
        (u2 - 0.5) * (u2 - 0.5) := Real.sq_sqrt hL.le
  refine ⟨ne_of_gt hlenpos, ?_⟩
  simp only [triMag, rawDirection]
  have hinside : ((u0 - 0.5) / dirLen u0 u1 u2) ^ 2 +
      ((u1 - 0.5) / dirLen u0 u1 u2) ^ 2 +
      ((u2 - 0.5) / dirLen u0 u1 u2) ^ 2 = 1 := by
    rw [div_pow, div_pow, div_pow, div_add_div_same, div_add_div_same,
      hlen2]
    rw [div_eq_one_iff_eq (by nlinarith)]
    ring
  rw [hinside, Real.sqrt_one]

/-- Counterexample to C9 as stated: the random source can output `0.5` three
times in a row (`0.5` is a possible value of `Math.random()`), and then the
raw direction vector is the zero vector: its norm is `0` and the
normalization divides by zero. -/
theorem direction_zero_norm_counterexample :
    (0 : ℝ) ≤ 0.5 ∧ (0.5 : ℝ) < 1 ∧ dirLen 0.5 0.5 0.5 = 0 := by
  refine ⟨by norm_num, by norm_num, ?_⟩
  norm_num [dirLen]

/-- Claim C6 (amended): provided the three direction samples are not all
exactly `0.5`, every explosion velocity has Euclidean magnitude in `[2, 7]`
whenever the three speed samples lie in `[0, 1)`; no bound on the direction
samples themselves is needed. -/
theorem explosion_velocity_magnitude_in_range (u0 u1 u2 u3 u4 u5 : ℝ)
    (h3 : 0 ≤ u3) (h3' : u3 < 1) (h4 : 0 ≤ u4) (h4' : u4 < 1)
    (h5 : 0 ≤ u5) (h5' : u5 < 1)
    (hne : ¬(u0 = 0.5 ∧ u1 = 0.5 ∧ u2 = 0.5)) :
    2 ≤ triMag (explosionVelocity u0 u1 u2 u3 u4 u5) ∧
    triMag (explosionVelocity u0 u1 u2 u3 u4 u5) ≤ 7 := by
  have hL := rawDirection_normSq_pos u0 u1 u2 hne
  have hlenpos : 0 < dirLen u0 u1 u2 := Real.sqrt_pos.mpr hL
  have hlen2 : dirLen u0 u1 u2 ^ 2 =
      (u0 - 0.5) * (u0 - 0.5) + (u1 - 0.5) * (u1 - 0.5) +
        (u2 - 0.5) * (u2 - 0.5) := Real.sq_sqrt hL.le
  have hlen2pos : 0 < dirLen u0 u1 u2 ^ 2 := by positivity
  have hlow : 4 * dirLen u0 u1 u2 ^ 2 ≤
      (u0 - 0.5) ^ 2 * (u3 * 5 + 2) ^ 2 + (u1 - 0.5) ^ 2 * (u4 * 5 + 2) ^ 2 +
        (u2 - 0.5) ^ 2 * (u5 * 5 + 2) ^ 2 := by
    rw [hlen2]
    nlinarith [mul_nonneg (mul_nonneg h3 (by linarith : (0:ℝ) ≤ u3 * 5 + 4))
        (sq_nonneg (u0 - 0.5)),
      mul_nonneg (mul_nonneg h4 (by linarith : (0:ℝ) ≤ u4 * 5 + 4))
        (sq_nonneg (u1 - 0.5)),
      mul_nonneg (mul_nonneg h5 (by linarith : (0:ℝ) ≤ u5 * 5 + 4))
        (sq_nonneg (u2 - 0.5))]
  have hhigh : (u0 - 0.5) ^ 2 * (u3 * 5 + 2) ^ 2 +
      (u1 - 0.5) ^ 2 * (u4 * 5 + 2) ^ 2 +
      (u2 - 0.5) ^ 2 * (u5 * 5 + 2) ^ 2 ≤ 49 * dirLen u0 u1 u2 ^ 2 := by
    rw [hlen2]
    nlinarith [mul_nonneg (mul_nonneg (by linarith : (0:ℝ) ≤ 1 - u3)
          (by linarith : (0:ℝ) ≤ u3 * 5 + 9)) (sq_nonneg (u0 - 0.5)),
      mul_nonneg (mul_nonneg (by linarith : (0:ℝ) ≤ 1 - u4)
          (by linarith : (0:ℝ) ≤ u4 * 5 + 9)) (sq_nonneg (u1 - 0.5)),
      mul_nonneg (mul_nonneg (by linarith : (0:ℝ) ≤ 1 - u5)
          (by linarith : (0:ℝ) ≤ u5 * 5 + 9)) (sq_nonneg (u2 - 0.5))]
  have hSlow : (4 : ℝ) ≤ ((u0 - 0.5) ^ 2 * (u3 * 5 + 2) ^ 2 +
      (u1 - 0.5) ^ 2 * (u4 * 5 + 2) ^ 2 +
      (u2 - 0.5) ^ 2 * (u5 * 5 + 2) ^ 2) / dirLen u0 u1 u2 ^ 2 := by
    rw [le_div_iff₀ hlen2pos]
    linarith
  have hShigh : ((u0 - 0.5) ^ 2 * (u3 * 5 + 2) ^ 2 +
      (u1 - 0.5) ^ 2 * (u4 * 5 + 2) ^ 2 +
      (u2 - 0.5) ^ 2 * (u5 * 5 + 2) ^ 2) / dirLen u0 u1 u2 ^ 2 ≤ 49 := by
    rw [div_le_iff₀ hlen2pos]
    linarith
  have hmag : triMag (explosionVelocity u0 u1 u2 u3 u4 u5) =
      Real.sqrt (((u0 - 0.5) / dirLen u0 u1 u2 * (u3 * 5 + 2)) ^ 2 +
        ((u1 - 0.5) / dirLen u0 u1 u2 * (u4 * 5 + 2)) ^ 2 +
        ((u2 - 0.5) / dirLen u0 u1 u2 * (u5 * 5 + 2)) ^ 2) := rfl
  have hS : ((u0 - 0.5) / dirLen u0 u1 u2 * (u3 * 5 + 2)) ^ 2 +
      ((u1 - 0.5) / dirLen u0 u1 u2 * (u4 * 5 + 2)) ^ 2 +
      ((u2 - 0.5) / dirLen u0 u1 u2 * (u5 * 5 + 2)) ^ 2 =
      ((u0 - 0.5) ^ 2 * (u3 * 5 + 2) ^ 2 + (u1 - 0.5) ^ 2 * (u4 * 5 + 2) ^ 2 +
        (u2 - 0.5) ^ 2 * (u5 * 5 + 2) ^ 2) / dirLen u0 u1 u2 ^ 2 := by
    field_simp
    ring
  have h4eq : Real.sqrt 4 = 2 := by
    rw [show (4 : ℝ) = 2 ^ 2 by norm_num]
    exact Real.sqrt_sq (by norm_num)
  have h49eq : Real.sqrt 49 = 7 := by
    rw [show (49 : ℝ) = 7 ^ 2 by norm_num]
    exact Real.sqrt_sq (by norm_num)
  rw [hmag, hS]
  constructor
  · have h := Real.sqrt_le_sqrt hSlow
    rw [h4eq] at h
    exact h
  · have h := Real.sqrt_le_sqrt hShigh
    rw [h49eq] at h
    exact h

/-- Witness for C6 at direction samples `(0.9, 0.5, 0.5)` and speed samples
`(0, 0, 0)`. -/
theorem explosion_velocity_magnitude_in_range_witness :
    (0 : ℝ) ≤ 0 ∧ (0 : ℝ) < 1 ∧
    ¬((0.9 : ℝ) = 0.5 ∧ (0.5 : ℝ) = 0.5 ∧ (0.5 : ℝ) = 0.5) ∧
    (2 ≤ triMag (explosionVelocity 0.9 0.5 0.5 0 0 0) ∧
      triMag (explosionVelocity 0.9 0.5 0.5 0 0 0) ≤ 7) :=
  ⟨le_refl 0, by norm_num, by norm_num,
    explosion_velocity_magnitude_in_range 0.9 0.5 0.5 0 0 0
      (le_refl 0) (by norm_num) (le_refl 0) (by norm_num)
      (le_refl 0) (by norm_num) (by norm_num)⟩

/-- Counterexample to C6 as stated: when the random source outputs `0.5` for
all three direction samples, the normalization divides by zero and the
resulting velocity magnitude is `0` (in the real-valued model; in JavaScript
the components are `NaN`), not in `[2, 7]`. -/
theorem velocity_magnitude_counterexample :
    triMag (explosionVelocity 0.5 0.5 0.5 0 0 0) = 0 ∧ (0 : ℝ) < 2 := by
  constructor
  · norm_num [triMag, explosionVelocity, rawDirection, dirLen]
  · norm_num

/-- Witness for C9 at direction samples `(0.9, 0.5, 0.5)`. -/
theorem direction_normalized_unit_witness :
    ¬((0.9 : ℝ) = 0.5 ∧ (0.5 : ℝ) = 0.5 ∧ (0.5 : ℝ) = 0.5) ∧
    (dirLen 0.9 0.5 0.5 ≠ 0 ∧
      triMag ((rawDirection 0.9 0.5 0.5).1 / dirLen 0.9 0.5 0.5,
        (rawDirection 0.9 0.5 0.5).2.1 / dirLen 0.9 0.5 0.5,
        (rawDirection 0.9 0.5 0.5).2.2 / dirLen 0.9 0.5 0.5) = 1) :=
  ⟨by norm_num, direction_normalized_unit 0.9 0.5 0.5 (by norm_num)⟩

end BigBang
